import Mathlib

/-!
# Verification of `easy_thumbnails/files.py`

A shallow embedding of the thumbnail cache-naming / freshness / storage
pipeline of `easy_thumbnails` (module `files.py`), together with theorems
settling the frozen claims about it.

Conventions used throughout:

* Python strings are modelled as `String` at the interfaces and as
  `List Char` inside the string-processing helpers (so that everything
  reduces by structural recursion).
* A Python call that can raise is modelled as `Except PyErr _` (or
  `Option _` when only one failure mode matters); `.error` is an
  uncaught exception.
* Storage backends are modelled by their capability functions
  (`path`, `delete`, `save`); the set of stored objects is threaded
  explicitly as a `Store` value.
-/

/-- Python exception kinds relevant to `files.py`. -/
inductive PyErr where
  | notImplemented
  | attributeError
  | typeError
  | osError
  deriving DecidableEq, Repr

/-- A Python value that can occur in a thumbnail-options dict
(`size` tuples, `quality` ints, boolean / string / None flags).
`pair` stands for a 2-tuple of ints. -/
inductive OptVal where
  | pyTrue
  | pyFalse
  | pyNone
  | int (n : Int)
  | str (s : String)
  | pair (a b : Int)
  deriving DecidableEq, Repr

/-- Python truthiness (`if v:`) of an `OptVal`. -/
def pyTruthy : OptVal → Bool
  | .pyTrue => true
  | .pyFalse => false
  | .pyNone => false
  | .int n => decide (n ≠ 0)
  | .str s => decide (s ≠ "")
  | .pair _ _ => true

/-- Render a nonnegative/negative integer the way Python `'%s' % i` does. -/
def intToChars (i : Int) : List Char :=
  if i < 0 then '-' :: Nat.toDigits 10 i.natAbs else Nat.toDigits 10 i.toNat

/-- Python `'%s' % v` for an `OptVal`. -/
def pyStr : OptVal → List Char
  | .pyTrue => "True".data
  | .pyFalse => "False".data
  | .pyNone => "None".data
  | .int n => intToChars n
  | .str s => s.data
  | .pair a b => '(' :: (intToChars a ++ ", ".data ++ intToChars b ++ [')'])

/-! ## Path helpers (from Python 2 `posixpath`) -/

/-- Strip trailing `'/'` characters (`str.rstrip('/')`). -/
def rstripSlash (l : List Char) : List Char :=
  (l.reverse.dropWhile (· = '/')).reverse

/-- `os.path.split`: split on the final slash; the head keeps no
trailing slashes unless it consists only of slashes. -/
def ospathSplit (l : List Char) : List Char × List Char :=
  let tail := (l.reverse.takeWhile (· ≠ '/')).reverse
  let head := l.take (l.length - tail.length)
  let head' := if head ≠ [] ∧ head.any (· ≠ '/') then rstripSlash head else head
  (head', tail)

/-- `os.path.splitext`: split off the extension at the final dot of the
basename; leading dots of the basename never start an extension. -/
def splitextList (l : List Char) : List Char × List Char :=
  let base := (l.reverse.takeWhile (· ≠ '/')).reverse
  let stripped := base.dropWhile (· = '.')
  if stripped.contains '.' then
    let extLen := (stripped.reverse.takeWhile (· ≠ '.')).length + 1
    (l.take (l.length - extLen), l.drop (l.length - extLen))
  else (l, [])

/-- `os.path.join` folded over a list of components. -/
def ospathJoinList : List (List Char) → List Char
  | [] => []
  | a :: rest =>
    rest.foldl
      (fun path b =>
        if b.head? = some '/' then b
        else if path = [] ∨ path.getLast? = some '/' then path ++ b
        else path ++ '/' :: b)
      a

/-- ASCII lowercasing, as `str.lower()` does on the extensions handled here. -/
def toLowerChars (l : List Char) : List Char :=
  l.map fun c => if 'A' ≤ c ∧ c ≤ 'Z' then Char.ofNat (c.toNat + 32) else c

/-- Python `a or b` specialised to strings (first operand when nonempty). -/
def pyOrC (a b : List Char) : List Char :=
  if a ≠ [] then a else b

/-- `'%(opts)s' in template`. -/
def hasOptsKey : List Char → Bool
  | '%' :: '(' :: 'o' :: 'p' :: 't' :: 's' :: ')' :: 's' :: _ => true
  | _ :: rest => hasOptsKey rest
  | [] => false

/-- `template % {'opts': opts}` for templates whose only conversion
directive is `%(opts)s` (the only directive the naming templates use). -/
def interpOpts (opts : List Char) : List Char → List Char
  | '%' :: '(' :: 'o' :: 'p' :: 't' :: 's' :: ')' :: 's' :: rest =>
    opts ++ interpOpts opts rest
  | c :: rest => c :: interpOpts opts rest
  | [] => []

/-- `sep.join(parts)`. -/
def interList (sep : List Char) : List (List Char) → List Char
  | [] => []
  | [a] => a
  | a :: rest => a ++ sep ++ interList sep rest

/-! ## The options dict and its deterministic ordering

A Python dict is modelled by its `items()` list: an association list
with pairwise-distinct keys.  Python 2 sorts the `(key, value)` item
tuples; on dict items the keys are distinct, so ties are never broken
by the values.  We use a total, antisymmetric order on the pairs whose
primary component is the key. -/

/-- First-match lookup in an items list (dict indexing). -/
def lookupOpt (k : String) : List (String × OptVal) → Option OptVal
  | [] => none
  | p :: rest => if p.1 = k then some p.2 else lookupOpt k rest

/-- Injective key for ordering `OptVal`s (used only to break ties that
cannot occur between distinct dict keys). -/
def optValKey : OptVal → Lex (Nat × Lex (Int × Lex (Int × String)))
  | .pyNone => toLex (0, toLex (0, toLex (0, "")))
  | .pyFalse => toLex (1, toLex (0, toLex (0, "")))
  | .pyTrue => toLex (2, toLex (0, toLex (0, "")))
  | .int n => toLex (3, toLex (n, toLex (0, "")))
  | .str s => toLex (4, toLex (0, toLex (0, s)))
  | .pair a b => toLex (5, toLex (a, toLex (b, "")))

/-- Sort key of an option item: the option key first, the value only as
a (never reached for dicts) tie-break. -/
def pairKey (p : String × OptVal) : Lex (String × Lex (Nat × Lex (Int × Lex (Int × String)))) :=
  toLex (p.1, optValKey p.2)

/-- The total order in which `opts.sort()` arranges option items. -/
def pairLe (p q : String × OptVal) : Prop :=
  pairKey p ≤ pairKey q

instance : DecidableRel pairLe := fun p q =>
  inferInstanceAs (Decidable (pairKey p ≤ pairKey q))

instance : IsTotal (String × OptVal) pairLe :=
  ⟨fun p q => le_total (pairKey p) (pairKey q)⟩

instance : IsTrans (String × OptVal) pairLe :=
  ⟨fun _ _ _ h₁ h₂ => le_trans h₁ h₂⟩

instance : IsAntisymm (String × OptVal) pairLe :=
  ⟨fun p q h₁ h₂ => by
    have hk : pairKey p = pairKey q := le_antisymm h₁ h₂
    rcases p with ⟨k₁, v₁⟩
    rcases q with ⟨k₂, v₂⟩
    simp only [pairKey, toLex_inj, Prod.mk.injEq] at hk
    refine Prod.ext hk.1 ?_
    have hv := hk.2
    cases v₁ <;> cases v₂ <;>
      simp only [optValKey, toLex_inj, Prod.mk.injEq] at hv <;> simp_all⟩

/-! ## `Thumbnailer.get_thumbnail_name` -/

/-- The naming configuration (`THUMBNAIL_BASEDIR` / `SUBDIR` / `PREFIX` /
`QUALITY` / `EXTENSION` settings read into `Thumbnailer` class attributes). -/
structure ThumbConf where
  basedir : String
  subdir : String
  prefixStr : String
  quality : Int
  extension : String
  deriving Repr

/-- The option items left after `pop('size')` and `pop('quality', ...)`. -/
def remainingOpts (options : List (String × OptVal)) : List (String × OptVal) :=
  options.filter fun p => decide (p.1 ≠ "size") && decide (p.1 ≠ "quality")

/-- `opts.sort()` on the remaining items. -/
def sortedOpts (options : List (String × OptVal)) : List (String × OptVal) :=
  List.insertionSort pairLe (remainingOpts options)

/-- One rendered option token, embedding the source expression
`'%s' % (v is not True and '%s-%s' % (k, v) or k)` with Python's
truthiness-based `and` / `or`. -/
def optToken (k : String) (v : OptVal) : List Char :=
  let b := decide (v ≠ OptVal.pyTrue)
  let kv := k.data ++ '-' :: pyStr v
  -- `b and kv`: a Bool operand propagates when falsy, else yields `kv`;
  -- `_ or k`: the left operand when truthy, else `k`.
  if b then (if kv ≠ [] then kv else k.data) else k.data

/-- The rendered option tokens
`['%s' % (...) for k, v in opts if v]` after sorting. -/
def renderedOpts (options : List (String × OptVal)) : List (List Char) :=
  ((sortedOpts options).filter fun p => pyTruthy p.2).map fun p => optToken p.1 p.2

/-- `Thumbnailer.get_thumbnail_name` (files.py:173-211).

`none` models the exceptions raised while popping `size`
(`KeyError` when absent, `TypeError` when the value is not a pair;
`tuple()`-coercion of other iterables is outside the modelled domain). -/
def get_thumbnail_name (cfg : ThumbConf) (name : String)
    (options : List (String × OptVal)) : Option String :=
  let ps := ospathSplit name.data
  let path := ps.1
  let source_filename := ps.2
  let source_extension := (splitextList source_filename).2.drop 1
  let filename := cfg.prefixStr.data ++ source_filename
  let extension := pyOrC (pyOrC cfg.extension.data (toLowerChars source_extension)) "jpg".data
  match lookupOpt "size" options with
  | some (OptVal.pair w h) =>
    let quality := (lookupOpt "quality" options).getD (OptVal.int cfg.quality)
    let initial_opts := [intToChars w ++ 'x' :: intToChars h, 'q' :: pyStr quality]
    let all_opts := interList "_".data (initial_opts ++ renderedOpts options)
    let basedir := interpOpts all_opts cfg.basedir.data
    let subdir := interpOpts all_opts cfg.subdir.data
    let filename_parts :=
      filename ::
        (if hasOptsKey cfg.basedir.data || hasOptsKey cfg.subdir.data then
          (if extension ≠ source_extension then [extension] else [])
        else [all_opts, extension])
    let fname := interList ".".data filename_parts
    some (String.mk (ospathJoinList [basedir, path, subdir, fname]))
  | _ => none

/-- Modelled from the spec: the default naming settings
(`easy_thumbnails/utils.py` and the settings defaults are not under
`src/`).  Neither default template interpolates `opts`, the filename
prefix is empty, the forced extension is empty (so the source extension,
then `"jpg"`, is used), and the default quality is an integer in 1-100. -/
def specDefaultConf : ThumbConf :=
  { basedir := "", subdir := "", prefixStr := "", quality := 85, extension := "" }

/-- The option-token rule as the claim words it: falsy values contribute
no token, the boolean-true sentinel contributes the key alone, and any
other value contributes `key-value`. -/
def specTokenRule (p : String × OptVal) : Option (List Char) :=
  if pyTruthy p.2 = false then none
  else if p.2 = OptVal.pyTrue then some p.1.data
  else some (p.1.data ++ '-' :: pyStr p.2)

/-! ## Storage backends and stored objects -/

/-- A storage backend's static capabilities.

* `pathOf n = none` models `storage.path(n)` raising `NotImplementedError`
  (no local filesystem projection).
* `deleteRaises n = true` models `storage.delete(n)` raising.
* `saveNameOf n` is the name echoed back by `storage.save(n, content)`
  (backends may rename on collision). -/
structure Storage where
  pathOf : String → Option String
  deleteRaises : String → Bool
  saveNameOf : String → String

/-- The set of objects held by one backend: name → stored content. -/
abbrev Store := List (String × String)

/-- `storage.exists(n)`. -/
def storeExists (s : Store) (n : String) : Bool :=
  s.any fun p => p.1 = n

/-- Effect of a successful `storage.delete(n)` on the stored objects. -/
def storeDelete (s : Store) (n : String) : Store :=
  s.filter fun p => decide (p.1 ≠ n)

/-- Effect of `storage.save(n, content)` on the stored objects. -/
def storePut (s : Store) (n content : String) : Store :=
  (n, content) :: storeDelete s n

/-- `storage.delete(n)` as a fallible operation. -/
def storageDeleteOp (st : Storage) (s : Store) (n : String) : Except PyErr Store :=
  if st.deleteRaises n then .error .osError else .ok (storeDelete s n)

/-- The local filesystem metadata visible through `os.path.isfile` and
`os.path.getmtime` (only ever consulted on paths both `isfile`). -/
structure LocalFS where
  isfile : String → Bool
  getmtime : String → Int

/-! ## `save_thumbnail` (files.py:34-45) -/

/-- `save_thumbnail(thumbnail_file, storage)`: if an object already
exists under the thumbnail's name, try to delete it, swallowing any
exception (`try: storage.delete(filename) except: pass`); then save the
new content and return the name reported by `storage.save`. -/
def save_thumbnail (st : Storage) (s : Store) (filename content : String) :
    String × Store :=
  let s₁ :=
    if storeExists s filename then
      match storageDeleteOp st s filename with
      | .ok s' => s'
      | .error _ => s
    else s
  let stored := st.saveNameOf filename
  (stored, storePut s₁ stored content)

/-! ## `Thumbnailer.thumbnail_exists` (files.py:250-287) -/

/-- The body of `Thumbnailer.thumbnail_exists` after the thumbnail
filename has been computed (the method recomputes it purely via
`get_thumbnail_name`).  `ss` / `ts` are `self.source_storage` /
`self.thumbnail_storage`, `tstore` the thumbnail backend's objects
(consulted by `self.thumbnail_storage.exists`), `name` is `self.name`.

The `try/except NotImplementedError` probes become `pathOf`; the
*fallback* `path` calls on lines 277/279 are not wrapped in `try`, so a
`NotImplementedError` there propagates (`.error`). -/
def thumbnail_exists_name (fs : LocalFS) (ss ts : Storage) (tstore : Store)
    (name filename : String) : Except PyErr Bool :=
  let source_path := ss.pathOf name
  let thumbnail_path := ts.pathOf filename
  if source_path.isNone && thumbnail_path.isNone then
    .ok (storeExists tstore filename)
  else
    match (match source_path with
           | some p => .ok p
           | none => match ts.pathOf name with
                     | some p => .ok p
                     | none => .error PyErr.notImplemented : Except PyErr String) with
    | .error e => .error e
    | .ok sp =>
      match (match thumbnail_path with
             | some p => .ok p
             | none => match ss.pathOf filename with
                       | some p => .ok p
                       | none => .error PyErr.notImplemented : Except PyErr String) with
      | .error e => .error e
      | .ok tp =>
        if fs.isfile tp then
          if !fs.isfile sp then .ok true
          else .ok (decide (fs.getmtime sp ≤ fs.getmtime tp))
        else .ok false

/-! ## `Thumbnailer.get_thumbnail` (files.py:213-248) -/

/-- An in-memory generated thumbnail (`ThumbnailFile` with content and
`_committed = False`). -/
structure GenThumb where
  name : String
  data : String
  committed : Bool
  deriving DecidableEq, Repr

/-- What `get_thumbnail` hands back: a lazy handle to an existing stored
thumbnail, or a freshly generated one. -/
inductive GetResult where
  | existingHandle (name : String)
  | generated (t : GenThumb)
  deriving DecidableEq, Repr

instance instDecidableEqExcept {ε α : Type} [DecidableEq ε] [DecidableEq α] :
    DecidableEq (Except ε α) := fun x y =>
  match x, y with
  | .ok a, .ok b =>
    if h : a = b then isTrue (congrArg Except.ok h)
    else isFalse fun hc => h (by injection hc)
  | .error a, .error b =>
    if h : a = b then isTrue (congrArg Except.error h)
    else isFalse fun hc => h (by injection hc)
  | .ok _, .error _ => isFalse fun hc => Except.noConfusion hc
  | .error _, .ok _ => isFalse fun hc => Except.noConfusion hc

/-- `Thumbnailer.get_thumbnail(thumbnail_options, save=True)`.

* `name` is `self.name` (`none` models Python `None`; `get_thumbnail_name`
  then raises `AttributeError` inside `os.path.split(None)`).
* `genData` stands for the opaque generated image bytes
  (`engine.process_image` / `engine.save_image` are external).
* `storagesDiffer` is `self.source_storage != self.thumbnail_storage`.
* The result carries the thumbnail backend's store, also on error.

In the replication branch, `self.field_storage` is an attribute that no
class in files.py defines (`Thumbnailer` defines `source_storage`), so
reaching line 243 raises `AttributeError`, which the surrounding
`except NotImplementedError` does not catch. -/
def get_thumbnail (cfg : ThumbConf) (fs : LocalFS) (ss ts : Storage)
    (tstore : Store) (storagesDiffer : Bool) (name : Option String)
    (options : List (String × OptVal)) (genData : String) (save : Bool) :
    Except PyErr GetResult × Store :=
  match name with
  | none => (.error .attributeError, tstore)
  | some nm =>
    match get_thumbnail_name cfg nm options with
    | none => (.error .typeError, tstore)
    | some tname =>
      match thumbnail_exists_name fs ss ts tstore nm tname with
      | .error e => (.error e, tstore)
      | .ok true => (.ok (.existingHandle tname), tstore)
      | .ok false =>
        let thumb : GenThumb := { name := tname, data := genData, committed := false }
        if save && decide (nm ≠ "") then
          let saved := save_thumbnail ts tstore tname genData
          if storagesDiffer then
            match ts.pathOf tname with
            | some _ => (.ok (.generated thumb), saved.2)
            | none => (.error .attributeError, saved.2)
          else (.ok (.generated thumb), saved.2)
        else (.ok (.generated thumb), tstore)

/-! ## `ThumbnailerFieldFile.save` (files.py:315-338) -/

/-- The local filesystem as mutated by the placeholder write: existing
files (with contents) and directories. -/
structure FileSys where
  files : List (String × String)
  dirs : List String
  deriving DecidableEq, Repr

/-- `os.path.exists` against the modelled filesystem. -/
def fsExists (fs : FileSys) (p : String) : Bool :=
  (fs.files.any fun q => q.1 = p) || fs.dirs.contains p

/-- `os.path.dirname`. -/
def ospathDirname (p : String) : String :=
  String.mk (ospathSplit p.data).1

/-- The placeholder-replication step of `ThumbnailerFieldFile.save`,
after `super().save` stored the source (the field storage's own state
is not consulted here).  `finalName` is `self.name` after the save,
`storagesDiffer` is `self.thumbnail_storage != self.field.storage`.

`os.makedirs(os.path.dirname(path))` is modelled as registering the
directory chain's last component; an `OSError` from it (e.g. the
directory already exists) is swallowed, so the directory set is updated
unconditionally before the zero-byte `open(path, 'w').close()`. -/
def thumbnailerFieldFileSavePlaceholder (ts : Storage) (storagesDiffer : Bool)
    (finalName : String) (fs : FileSys) : FileSys :=
  if storagesDiffer then
    match ts.pathOf finalName with
    | none => fs
    | some path =>
      if fsExists fs path then fs
      else
        let fs₁ : FileSys := { fs with dirs := ospathDirname path :: fs.dirs }
        { fs₁ with files := (path, "") :: fs₁.files }
  else fs

/-! ## `ThumbnailFile._set_image` (files.py:87-103) -/

/-- A decoded PIL image (only its dimensions matter here). -/
structure PILImage where
  w : Nat
  h : Nat
  deriving DecidableEq, Repr

/-- The attribute state of a `ThumbnailFile` relevant to the image
property: `_image_cache`, `_dimensions_cache` and `_cached_image`
(`none` = attribute not set). -/
structure TFState where
  image_cache : Option PILImage
  dimensions_cache : Option (Nat × Nat)
  cached_image : Option PILImage
  deriving DecidableEq, Repr

/-- `ThumbnailFile._set_image(image)`: a truthy image is cached together
with its dimensions; a falsy one clears the caches — but the clearing
branch executes `del self._cached_image` (not `_image_cache`), raising
`AttributeError` when `_cached_image` was never set. -/
def setImage (st : TFState) (img : Option PILImage) : Except PyErr TFState :=
  match img with
  | some i => .ok { st with image_cache := some i, dimensions_cache := some (i.w, i.h) }
  | none =>
    match (if st.image_cache.isSome then
             match st.cached_image with
             | some _ => .ok { st with cached_image := none }
             | none => .error PyErr.attributeError
           else .ok st : Except PyErr TFState) with
    | .error e => .error e
    | .ok st₁ =>
      .ok (if st₁.dimensions_cache.isSome then { st₁ with dimensions_cache := none } else st₁)

/-! ## Claims about canonical naming -/

theorem lookupOpt_perm (k : String) {A B : List (String × OptVal)} (h : A.Perm B) :
    (A.map Prod.fst).Nodup → lookupOpt k A = lookupOpt k B := by
  induction h with
  | nil => intro _; rfl
  | cons x h ih =>
    intro hnd
    simp only [List.map_cons, List.nodup_cons] at hnd
    by_cases hx : x.1 = k
    · simp [lookupOpt, hx]
    · simp only [lookupOpt, hx, if_neg, ite_false]
      exact ih hnd.2
  | swap x y l =>
    intro hnd
    have hxy : y.1 ≠ x.1 := by
      intro hcon
      simp [hcon] at hnd
    by_cases h1 : y.1 = k <;> by_cases h2 : x.1 = k
    · exact absurd (h1.trans h2.symm) hxy
    · simp [lookupOpt, h1, h2]
    · simp [lookupOpt, h1, h2]
    · simp [lookupOpt, h1, h2]
  | trans h12 _ ih12 ih23 =>
    intro hnd
    rw [ih12 hnd, ih23 (((h12.map Prod.fst).nodup_iff).mp hnd)]

theorem sortedOpts_perm {A B : List (String × OptVal)} (h : A.Perm B) :
    sortedOpts A = sortedOpts B := by
  apply List.eq_of_perm_of_sorted (r := pairLe)
  · exact (List.perm_insertionSort _ _).trans
      ((h.filter _).trans (List.perm_insertionSort _ _).symm)
  · exact List.sorted_insertionSort _ _
  · exact List.sorted_insertionSort _ _

/-- C1: canonical naming is insertion-order independent — for every
source name and every two option dicts with identical key→value pairs
(modelled as item lists that are permutations of one another, with the
pairwise-distinct keys a dict guarantees), `get_thumbnail_name` produces
the identical artifact name. -/
theorem get_thumbnail_name_insertion_order_independent (cfg : ThumbConf)
    (name : String) (A B : List (String × OptVal)) (hAB : A.Perm B)
    (hnd : (A.map Prod.fst).Nodup) :
    get_thumbnail_name cfg name A = get_thumbnail_name cfg name B := by
  have hsize := lookupOpt_perm "size" hAB hnd
  have hqual := lookupOpt_perm "quality" hAB hnd
  have hrend : renderedOpts A = renderedOpts B := by
    unfold renderedOpts
    rw [sortedOpts_perm hAB]
  unfold get_thumbnail_name
  rw [hsize, hqual, hrend]

/-- Witness for C1 at a concrete pair of reordered option dicts. -/
theorem get_thumbnail_name_insertion_order_independent_witness :
    [("size", OptVal.pair 50 50), ("quality", OptVal.int 80), ("crop", OptVal.pyTrue)].Perm
      [("crop", OptVal.pyTrue), ("size", OptVal.pair 50 50), ("quality", OptVal.int 80)] ∧
    get_thumbnail_name specDefaultConf "photos/cat.jpg"
        [("size", OptVal.pair 50 50), ("quality", OptVal.int 80), ("crop", OptVal.pyTrue)] =
      get_thumbnail_name specDefaultConf "photos/cat.jpg"
        [("crop", OptVal.pyTrue), ("size", OptVal.pair 50 50), ("quality", OptVal.int 80)] := by
  refine ⟨by decide, ?_⟩
  exact get_thumbnail_name_insertion_order_independent specDefaultConf "photos/cat.jpg"
    _ _ (by decide) (by decide)

theorem optToken_spec (k : String) (v : OptVal) :
    (if pyTruthy v then some (optToken k v) else none) = specTokenRule (k, v) := by
  by_cases ht : pyTruthy v
  · by_cases he : v = OptVal.pyTrue
    · subst he
      simp [optToken, specTokenRule, pyTruthy]
    · simp [optToken, specTokenRule, ht, he]
  · simp [specTokenRule, ht]

theorem filter_map_token_eq_filterMap (l : List (String × OptVal)) :
    ((l.filter fun p => pyTruthy p.2).map fun p => optToken p.1 p.2) =
      l.filterMap specTokenRule := by
  induction l with
  | nil => rfl
  | cons p rest ih =>
    have hps : specTokenRule p = (if pyTruthy p.2 then some (optToken p.1 p.2) else none) :=
      (optToken_spec p.1 p.2).symm
    by_cases hp : pyTruthy p.2 <;>
      simp [List.filter_cons, List.filterMap_cons, hps, hp, ih]

theorem sortedOpts_key_sorted (options : List (String × OptVal)) :
    (sortedOpts options).Pairwise fun p q => p.1 ≤ q.1 := by
  have h := List.sorted_insertionSort pairLe (remainingOpts options)
  refine List.Pairwise.imp ?_ h
  intro a b hab
  rcases (Prod.Lex.le_iff _ _).mp hab with hlt | ⟨heq, _⟩
  · exact le_of_lt hlt
  · exact le_of_eq heq

/-- C5 (amended): every option other than `size` and `quality` is
emitted in key-sorted order and rendered by the rule "bare key for the
boolean-true sentinel, nothing for falsy values, `key-value` otherwise";
for `{size:(50,50), quality:80, crop:True}` on `"photos/cat.jpg"` the
joined tokens are `50x50_q80_crop`, and with the default templates the
resulting name is `"photos/cat.jpg.50x50_q80_crop.jpg"` — the tokens
immediately followed by the extension suffix, rather than ending the
name. -/
theorem option_token_rendering_rule :
    (∀ options, renderedOpts options = (sortedOpts options).filterMap specTokenRule) ∧
    (∀ options, (sortedOpts options).Pairwise fun p q => p.1 ≤ q.1) ∧
    get_thumbnail_name specDefaultConf "photos/cat.jpg"
        [("size", OptVal.pair 50 50), ("quality", OptVal.int 80), ("crop", OptVal.pyTrue)] =
      some "photos/cat.jpg.50x50_q80_crop.jpg" :=
  ⟨fun options => filter_map_token_eq_filterMap (sortedOpts options),
   sortedOpts_key_sorted, by decide⟩

/-- Counterexample to C5 as stated: on `{size:(50,50), quality:80,
crop:True}` and source `"photos/cat.jpg"` the produced name does not
*end* in the joined tokens `50x50_q80_crop` — the derived extension is
appended after them. -/
theorem option_token_rendering_counterexample :
    get_thumbnail_name specDefaultConf "photos/cat.jpg"
        [("size", OptVal.pair 50 50), ("quality", OptVal.int 80), ("crop", OptVal.pyTrue)] =
      some "photos/cat.jpg.50x50_q80_crop.jpg" ∧
    "50x50_q80_crop".data.isSuffixOf "photos/cat.jpg.50x50_q80_crop.jpg".data = false := by
  constructor
  · decide
  · decide

/-- C6 (amended): for source `"photos/cat.jpg"` and options
`{size:(100,75), quality:80}` under the default (non-interpolating)
templates, the artifact name is `"photos/cat.jpg.100x75_q80.jpg"`: the
source filename is kept whole and, since neither template interpolates
`opts`, both the option string and the extension are appended as
suffixes; the "no extra suffix when the extension matches the source"
rule applies only in the interpolating-template branch. -/
theorem default_template_naming :
    get_thumbnail_name specDefaultConf "photos/cat.jpg"
        [("size", OptVal.pair 100 75), ("quality", OptVal.int 80)] =
      some "photos/cat.jpg.100x75_q80.jpg" := by
  decide

/-- Counterexample to C6 as stated: the name is not
`"photos/100x75_q80.jpg"`. -/
theorem default_template_naming_counterexample :
    get_thumbnail_name specDefaultConf "photos/cat.jpg"
        [("size", OptVal.pair 100 75), ("quality", OptVal.int 80)] ≠
      some "photos/100x75_q80.jpg" := by
  decide

/-! ## Claims about the freshness decision -/

/-- C2: when at least one backend resolves a local path (so the
resolution step of `thumbnail_exists` yields a source path `sp` and an
artifact path `tp`, possibly via the cross-backend fallback), the
verdict is: Absent (`false`) when the artifact path is not an existing
local file; Fresh (`true`) when the artifact file exists but the source
path does not; otherwise Fresh iff the source's mtime ≤ the artifact's
mtime. -/
theorem thumbnail_exists_local_decision (fs : LocalFS) (ss ts : Storage)
    (tstore : Store) (name filename sp tp : String)
    (hsp : ss.pathOf name = some sp ∨ (ss.pathOf name = none ∧ ts.pathOf name = some sp))
    (htp : ts.pathOf filename = some tp ∨
      (ts.pathOf filename = none ∧ ss.pathOf filename = some tp))
    (hone : ss.pathOf name ≠ none ∨ ts.pathOf filename ≠ none) :
    thumbnail_exists_name fs ss ts tstore name filename =
      .ok (if fs.isfile tp = false then false
           else if fs.isfile sp = false then true
           else decide (fs.getmtime sp ≤ fs.getmtime tp)) := by
  have hcases :
      thumbnail_exists_name fs ss ts tstore name filename =
        (if fs.isfile tp then
          if !fs.isfile sp then .ok true
          else .ok (decide (fs.getmtime sp ≤ fs.getmtime tp))
        else .ok false) := by
    rcases hsp with hsp | ⟨hsn, hsp⟩ <;> rcases htp with htp | ⟨htn, htp⟩
    · simp [thumbnail_exists_name, hsp, htp]
    · simp [thumbnail_exists_name, hsp, htn, htp]
    · simp [thumbnail_exists_name, hsn, hsp, htp]
    · rcases hone with hbad | hbad
      · exact absurd hsn hbad
      · exact absurd htn hbad
  rw [hcases]
  cases htf : fs.isfile tp <;> cases hsf : fs.isfile sp <;> simp

/-- Witness for C2: a fully local pair of backends with an existing,
up-to-date artifact file. -/
theorem thumbnail_exists_local_decision_witness :
    thumbnail_exists_name
        { isfile := fun _ => true, getmtime := fun _ => 0 }
        { pathOf := fun n => some n, deleteRaises := fun _ => false, saveNameOf := fun n => n }
        { pathOf := fun n => some n, deleteRaises := fun _ => false, saveNameOf := fun n => n }
        [] "photos/cat.jpg" "photos/cat.jpg.100x75_q80.jpg" = .ok true := by
  have h := thumbnail_exists_local_decision
    { isfile := fun _ => true, getmtime := fun _ => 0 }
    { pathOf := fun n => some n, deleteRaises := fun _ => false, saveNameOf := fun n => n }
    { pathOf := fun n => some n, deleteRaises := fun _ => false, saveNameOf := fun n => n }
    [] "photos/cat.jpg" "photos/cat.jpg.100x75_q80.jpg"
    "photos/cat.jpg" "photos/cat.jpg.100x75_q80.jpg"
    (Or.inl rfl) (Or.inl rfl) (Or.inl (by decide))
  simpa using h

/-- C3: when neither backend resolves a local path for the relevant
names, `thumbnail_exists` is exactly the thumbnail backend's remote
existence check on the artifact name; the filesystem metadata `fs`
(mtimes) is universally quantified and absent from the result, so no
modification-time comparison takes place. -/
theorem thumbnail_exists_remote_only (fs : LocalFS) (ss ts : Storage)
    (tstore : Store) (name filename : String)
    (hs : ss.pathOf name = none) (ht : ts.pathOf filename = none) :
    thumbnail_exists_name fs ss ts tstore name filename =
      .ok (storeExists tstore filename) := by
  simp [thumbnail_exists_name, hs, ht]

/-- Witness for C3: two pathless (remote) backends and a store holding
the artifact. -/
theorem thumbnail_exists_remote_only_witness :
    thumbnail_exists_name
        { isfile := fun _ => false, getmtime := fun _ => 7 }
        { pathOf := fun _ => none, deleteRaises := fun _ => false, saveNameOf := fun n => n }
        { pathOf := fun _ => none, deleteRaises := fun _ => false, saveNameOf := fun n => n }
        [("photos/cat.jpg.100x75_q80.jpg", "bytes")]
        "photos/cat.jpg" "photos/cat.jpg.100x75_q80.jpg" = .ok true := by
  have h := thumbnail_exists_remote_only
    { isfile := fun _ => false, getmtime := fun _ => 7 }
    { pathOf := fun _ => none, deleteRaises := fun _ => false, saveNameOf := fun n => n }
    { pathOf := fun _ => none, deleteRaises := fun _ => false, saveNameOf := fun n => n }
    [("photos/cat.jpg.100x75_q80.jpg", "bytes")]
    "photos/cat.jpg" "photos/cat.jpg.100x75_q80.jpg" rfl rfl
  simpa using h

/-! ## Claims about storing and replication -/

/-- C7: in `save_thumbnail`, when an object already exists at the
artifact name and the backend's delete raises, the exception is
swallowed, the save of the new bytes is still attempted (on the
undeleted store), and the function returns the name reported by the
backend's save. -/
theorem save_thumbnail_delete_failure_swallowed (st : Storage) (s : Store)
    (filename content : String) (hex : storeExists s filename = true)
    (hfail : st.deleteRaises filename = true) :
    save_thumbnail st s filename content =
      (st.saveNameOf filename, storePut s (st.saveNameOf filename) content) := by
  simp [save_thumbnail, storageDeleteOp, hex, hfail]

/-- Witness for C7: a backend whose delete always raises, with a stale
object already stored under the artifact name. -/
theorem save_thumbnail_delete_failure_swallowed_witness :
    save_thumbnail
        { pathOf := fun _ => none, deleteRaises := fun _ => true, saveNameOf := fun n => n }
        [("t.jpg", "old")] "t.jpg" "new" = ("t.jpg", [("t.jpg", "new")]) := by
  have h := save_thumbnail_delete_failure_swallowed
    { pathOf := fun _ => none, deleteRaises := fun _ => true, saveNameOf := fun n => n }
    [("t.jpg", "old")] "t.jpg" "new" (by decide) rfl
  simpa [storePut, storeDelete] using h

/-- C4 (code evaluated at the failing input): with `save=True`, a
non-empty name, a cache miss, distinct source and thumbnail storages and
a thumbnail storage without local-path support, the primary store
succeeds (the artifact is in the returned store) and yet `get_thumbnail`
raises `AttributeError` instead of returning the generated thumbnail:
the replication branch reads `self.field_storage`, an attribute nothing
defines, and `except NotImplementedError` does not catch that. -/
theorem get_thumbnail_replication_failure_raises :
    get_thumbnail specDefaultConf
        { isfile := fun _ => false, getmtime := fun _ => 0 }
        { pathOf := fun n => some n, deleteRaises := fun _ => false, saveNameOf := fun n => n }
        { pathOf := fun _ => none, deleteRaises := fun _ => false, saveNameOf := fun n => n }
        [] true (some "photos/cat.jpg") [("size", OptVal.pair 100 75)] "DATA" true =
      (Except.error PyErr.attributeError, [("photos/cat.jpg.100x75_q85.jpg", "DATA")]) := by
  decide

/-- C9 (amended): with `save=True` the generated thumbnail is committed
to the thumbnail backend only when the Thumbnailer's name is non-empty.
With the empty name the freshly generated, uncommitted thumbnail is
returned and the thumbnail store is left unchanged; with name `None` the
name computation raises `AttributeError` before any storage access, so
the store is likewise unchanged but no thumbnail is returned. -/
theorem get_thumbnail_empty_name_no_store :
    (∀ cfg fs ss ts tstore differ options genData save,
      get_thumbnail cfg fs ss ts tstore differ none options genData save =
        (.error PyErr.attributeError, tstore)) ∧
    (∀ cfg fs ss ts tstore differ options genData save tname,
      get_thumbnail_name cfg "" options = some tname →
      thumbnail_exists_name fs ss ts tstore "" tname = .ok false →
      get_thumbnail cfg fs ss ts tstore differ (some "") options genData save =
        (.ok (.generated { name := tname, data := genData, committed := false }), tstore)) := by
  constructor
  · intro cfg fs ss ts tstore differ options genData save
    rfl
  · intro cfg fs ss ts tstore differ options genData save tname hname hmiss
    simp [get_thumbnail, hname, hmiss]

/-- Witness for C9's amended statement: a concrete empty-name call with
a cache miss returns the uncommitted thumbnail and leaves the store
untouched. -/
theorem get_thumbnail_empty_name_no_store_witness :
    get_thumbnail specDefaultConf
        { isfile := fun _ => false, getmtime := fun _ => 0 }
        { pathOf := fun n => some n, deleteRaises := fun _ => false, saveNameOf := fun n => n }
        { pathOf := fun n => some n, deleteRaises := fun _ => false, saveNameOf := fun n => n }
        [("kept.jpg", "kept")] true (some "") [("size", OptVal.pair 100 75)] "DATA" true =
      (.ok (.generated { name := ".100x75_q85.jpg", data := "DATA", committed := false }),
        [("kept.jpg", "kept")]) := by
  exact get_thumbnail_empty_name_no_store.2 specDefaultConf
    { isfile := fun _ => false, getmtime := fun _ => 0 }
    { pathOf := fun n => some n, deleteRaises := fun _ => false, saveNameOf := fun n => n }
    { pathOf := fun n => some n, deleteRaises := fun _ => false, saveNameOf := fun n => n }
    [("kept.jpg", "kept")] true [("size", OptVal.pair 100 75)] "DATA" true
    ".100x75_q85.jpg" (by decide) (by decide)

/-- Counterexample to C9 as stated: with name `None` (and `save=True`)
the call does not return a freshly generated thumbnail at all — it
raises `AttributeError` (the store is still unchanged). -/
theorem get_thumbnail_none_name_counterexample :
    get_thumbnail specDefaultConf
        { isfile := fun _ => false, getmtime := fun _ => 0 }
        { pathOf := fun n => some n, deleteRaises := fun _ => false, saveNameOf := fun n => n }
        { pathOf := fun n => some n, deleteRaises := fun _ => false, saveNameOf := fun n => n }
        [] true none [("size", OptVal.pair 100 75)] "DATA" true =
      (Except.error PyErr.attributeError, []) := by
  rfl

/-- C8: on `ThumbnailerFieldFile.save` with a thumbnail storage that
differs from the field's storage, if the thumbnail storage resolves a
local path for the saved source name and no file exists there, a
zero-byte file is created at that path with its directory chain
registered first; if the thumbnail storage has no local paths, the
filesystem is untouched and no error is raised. -/
theorem fieldfile_save_placeholder (ts : Storage) (fname : String) (fs : FileSys) :
    (∀ p, ts.pathOf fname = some p → fsExists fs p = false →
      thumbnailerFieldFileSavePlaceholder ts true fname fs =
        { files := (p, "") :: fs.files, dirs := ospathDirname p :: fs.dirs }) ∧
    (ts.pathOf fname = none →
      thumbnailerFieldFileSavePlaceholder ts true fname fs = fs) := by
  constructor
  · intro p hp hne
    simp [thumbnailerFieldFileSavePlaceholder, hp, hne]
  · intro hp
    simp [thumbnailerFieldFileSavePlaceholder, hp]

/-- Witness for C8: a local thumbnail storage creates the placeholder
and registers its directory; a pathless one leaves the filesystem
untouched. -/
theorem fieldfile_save_placeholder_witness :
    thumbnailerFieldFileSavePlaceholder
        { pathOf := fun n => some ("/tm/" ++ n), deleteRaises := fun _ => false,
          saveNameOf := fun n => n }
        true "photos/cat.jpg" { files := [], dirs := [] } =
      { files := [("/tm/photos/cat.jpg", "")], dirs := ["/tm/photos"] } ∧
    thumbnailerFieldFileSavePlaceholder
        { pathOf := fun _ => none, deleteRaises := fun _ => false, saveNameOf := fun n => n }
        true "photos/cat.jpg" { files := [], dirs := [] } =
      { files := [], dirs := [] } := by
  constructor
  · rw [(fieldfile_save_placeholder
      { pathOf := fun n => some ("/tm/" ++ n), deleteRaises := fun _ => false,
        saveNameOf := fun n => n }
      "photos/cat.jpg" { files := [], dirs := [] }).1 "/tm/photos/cat.jpg"
      (by decide) (by decide)]
    decide
  · exact (fieldfile_save_placeholder
      { pathOf := fun _ => none, deleteRaises := fun _ => false, saveNameOf := fun n => n }
      "photos/cat.jpg" { files := [], dirs := [] }).2 rfl

/-! ## Claim about the image-cache setter -/

/-- C10: once a `ThumbnailFile`'s image has been cached by assigning a
truthy image (which only ever sets `_image_cache`, never
`_cached_image`), assigning a falsy value such as `None` raises
`AttributeError`: the clearing branch deletes `_cached_image`, an
attribute that was never set. -/
theorem set_image_falsy_after_cache_raises (st : TFState) (i : PILImage)
    (hc : st.cached_image = none) (st' : TFState)
    (hset : setImage st (some i) = .ok st') :
    setImage st' none = .error PyErr.attributeError := by
  have hst' : st' = { st with image_cache := some i, dimensions_cache := some (i.w, i.h) } := by
    have := hset
    simp only [setImage, Except.ok.injEq] at this
    exact this.symm
  subst hst'
  simp [setImage, hc]

/-- Witness for C10: cache an image on a fresh `ThumbnailFile` state,
then assign `None`. -/
theorem set_image_falsy_after_cache_raises_witness :
    setImage { image_cache := some { w := 2, h := 3 },
               dimensions_cache := some (2, 3), cached_image := none } none =
      .error PyErr.attributeError :=
  set_image_falsy_after_cache_raises
    { image_cache := none, dimensions_cache := none, cached_image := none }
    { w := 2, h := 3 } rfl _ rfl
